import Mathlib

/-!
Verification of the PID-1 service supervisor of init_advanced.c
(src/exercises/advanced/09_custom_init/src/init_advanced.c).

The data model and operations below are a shallow embedding of the C
source: each Lean definition mirrors one C function, with the operating
system (executable checks, fork results, process liveness, waitpid
results) made explicit as oracle parameters, and the global flag
variables threaded explicitly.
-/

namespace InitAdv

/-- Service states, mirroring the SVC_STOPPED .. SVC_FAILED constants. -/
inductive SvcState where
  | stopped
  | starting
  | running
  | stopping
  | failed
deriving DecidableEq, Repr

/-- A service table entry, mirroring struct service.  The flags bitmask
SVC_FLAG_RESPAWN / SVC_FLAG_WAIT / SVC_FLAG_CRITICAL / SVC_FLAG_ONESHOT
is represented as four booleans.  pid = 0 represents no recorded pid
(the C code uses 0 as the cleared value). -/
structure Service where
  name : String
  cmd : String
  runlevel : Int
  respawn : Bool
  wait : Bool
  critical : Bool
  oneshot : Bool
  state : SvcState
  pid : Nat
  start_time : Nat
  restart_count : Nat
  max_restarts : Nat
  restart_delay : Nat
deriving DecidableEq, Repr

/-- Environment for one start_service call: the access(path, X_OK) oracle,
the fork result (none = fork failed, some p = child pid p), the child's
normal exit code for WAIT services (none = abnormal termination), and the
current time. -/
structure Env where
  execOk : String → Bool
  forkRes : Option Nat
  waitExit : Option Nat
  now : Nat

instance : Inhabited Env := ⟨⟨fun _ => false, none, none, 0⟩⟩

/-- The ASCII space character that strchr searches for. -/
def spaceChar : Char := Char.ofNat 32

/-- First whitespace-delimited token of a command string: what the C code
obtains by temporarily overwriting the first space with a NUL. -/
def firstTok (s : String) : String := String.mk (s.data.takeWhile (fun c => c ≠ spaceChar))

/-- The command-not-found test of start_service: access on the literal
command string; on failure, if the string contains a space, access on the
first token.  A space-free command that fails access is NOT rejected
(the C code only rejects inside the if (space) branch). -/
def cmdNotFound (execOk : String → Bool) (cmd : String) : Bool :=
  if execOk cmd then false
  else if cmd.data.contains spaceChar then !execOk (firstTok cmd)
  else false

/-- Result of start_service: the updated service, the C return value,
and whether a fork was performed. -/
structure StartOutcome where
  svc : Service
  ret : Int
  forked : Bool
deriving Repr

/-- Shallow embedding of start_service.  No-op (return 0) when already
RUNNING; FAILED with return -1 on command-not-found or fork failure; on
fork success records pid and start_time, then either waits (WAIT flag:
exit 0 gives STOPPED, otherwise FAILED) or marks RUNNING. -/
def start_service (e : Env) (s : Service) : StartOutcome :=
  if s.state = .running then ⟨s, 0, false⟩
  else if cmdNotFound e.execOk s.cmd then ⟨{ s with state := .failed }, -1, false⟩
  else
    match e.forkRes with
    | none => ⟨{ s with state := .failed }, -1, false⟩
    | some p =>
      if s.wait then
        match e.waitExit with
        | some 0 =>
          ⟨{ s with pid := p, start_time := e.now, state := .stopped }, 0, true⟩
        | _ =>
          ⟨{ s with pid := p, start_time := e.now, state := .failed }, -1, true⟩
      else ⟨{ s with pid := p, start_time := e.now, state := .running }, 0, true⟩

/-- Signal kinds sent to processes during stop and shutdown. -/
inductive SigKind where
  | gracefulTerm
  | forcedKill
deriving DecidableEq, Repr

/-- Observable events of the stop and shutdown sequences, in program
order: per-pid signals, the watchdog disable, session-wide broadcasts,
fixed sleeps, storage syncs, unmounts, and the final reboot system call
(restart = true for LINUX_REBOOT_CMD_RESTART, false for POWER_OFF). -/
inductive Ev where
  | sig (pid : Nat) (k : SigKind)
  | stopWatchdog
  | bcast (k : SigKind)
  | sleepFor (secs : Nat)
  | syncFs
  | umountFs (path : String)
  | rebootCall (restart : Bool)
deriving DecidableEq, Repr

/-- Environment for one stop_service call: exitPoll i tells whether the
waitpid(pid, WNOHANG) probe at poll iteration i (after the i-th 100 ms
sleep) reaps the child. -/
structure StopEnv where
  exitPoll : Nat → Bool

instance : Inhabited StopEnv := ⟨⟨fun _ => false⟩⟩

/-- Result of stop_service: updated service, C return value, number of
100 ms polls performed, whether SIGKILL escalation happened, and the
emitted signal events. -/
structure StopOutcome where
  svc : Service
  ret : Int
  polls : Nat
  killed : Bool
  evs : List Ev

/-- Shallow embedding of stop_service.  No-op (return 0) when not
RUNNING.  Otherwise sends the graceful-terminate signal, polls up to 50
times; on the first successful poll marks STOPPED with pid cleared; if
all 50 polls fail, sends the forced kill, reaps blockingly, and likewise
marks STOPPED with pid cleared.  Always returns 0. -/
def stop_service (e : StopEnv) (s : Service) : StopOutcome :=
  if s.state = .running then
    match (List.range 50).find? e.exitPoll with
    | some i =>
      ⟨{ s with state := .stopped, pid := 0 }, 0, i + 1, false, [.sig s.pid .gracefulTerm]⟩
    | none =>
      ⟨{ s with state := .stopped, pid := 0 }, 0, 50, true,
        [.sig s.pid .gracefulTerm, .sig s.pid .forcedKill]⟩
  else ⟨s, 0, 0, false, []⟩

/-- Shallow embedding of restart_service: stop, one-second pause, start.
restart_count is not touched except by whatever start does (nothing). -/
def restart_service (se : StopEnv) (e : Env) (s : Service) : StartOutcome :=
  start_service e (stop_service se s).svc

/-- Shallow embedding of is_running: a pid of 0 is never running,
otherwise the kill(pid, 0) probe decides (alive is that oracle). -/
def is_running (alive : Nat → Bool) (pid : Nat) : Bool :=
  if pid = 0 then false else alive pid

/-- Result of check_services on one service: the updated entry, the
shutdown_requested and reboot_requested flags, and how many
start_service calls the respawn policy made (0 or 1). -/
structure CheckOne where
  svc : Service
  shutdown : Bool
  reboot : Bool
  attempts : Nat
deriving Repr

/-- One iteration of the check_services loop body for a single service.
If the service is RUNNING but its process is gone, it is marked STOPPED;
then, if RESPAWN is set and no shutdown is in progress: below the budget
the service is started again (after sleeping restart_delay) and
restart_count incremented, otherwise it is marked FAILED and, if
CRITICAL, both shutdown_requested and reboot_requested are raised. -/
def check_one (alive : Nat → Bool) (e : Env) (sd rb : Bool) (s : Service) : CheckOne :=
  if s.state = .running ∧ is_running alive s.pid = false then
    if s.respawn = true ∧ sd = false then
      if s.restart_count < s.max_restarts then
        ⟨{ (start_service e { s with state := SvcState.stopped }).svc with
             restart_count :=
               (start_service e { s with state := SvcState.stopped }).svc.restart_count + 1 },
          sd, rb, 1⟩
      else
        if s.critical then ⟨{ s with state := SvcState.failed }, true, true, 0⟩
        else ⟨{ s with state := SvcState.failed }, sd, rb, 0⟩
    else ⟨{ s with state := SvcState.stopped }, sd, rb, 0⟩
  else ⟨s, sd, rb, 0⟩

/-- Result of check_services over the whole table. -/
structure CheckOut where
  svcs : List Service
  shutdown : Bool
  reboot : Bool
  attempts : Nat
deriving Repr

/-- Shallow embedding of check_services: fold check_one over the service
table in order, threading the flags; one Env per service supplies the
fork/exec oracle for a potential respawn. -/
def check_services (alive : Nat → Bool) : List Env → Bool → Bool → List Service → CheckOut
  | _, sd, rb, [] => ⟨[], sd, rb, 0⟩
  | envs, sd, rb, s :: rest =>
    let c := check_one alive envs.headI sd rb s
    let r := check_services alive envs.tail c.shutdown c.reboot rest
    ⟨c.svc :: r.svcs, r.shutdown, r.reboot, c.attempts + r.attempts⟩

/-- One reaped pid handled by the reap_children inner loop: the first
service whose pid field matches has its pid cleared and, if it was
RUNNING, its state set to STOPPED; the search then breaks. -/
def reap_one (svcs : List Service) (p : Nat) : List Service :=
  match svcs with
  | [] => []
  | s :: rest =>
    if s.pid = p then
      { s with pid := 0,
               state := if s.state = .running then .stopped else s.state } :: rest
    else s :: reap_one rest p

/-- Shallow embedding of reap_children: waitpid(-1, WNOHANG) yields the
list of reaped pids in OS order; each is matched against the table. -/
def reap_children (reaped : List Nat) (svcs : List Service) : List Service :=
  reaped.foldl reap_one svcs

/-- The supervisor's global mutable state: the service table and the
shutdown_requested / reboot_requested / child_died flags. -/
structure Sys where
  services : List Service
  shutdown : Bool
  reboot : Bool
  childDied : Bool
deriving DecidableEq, Repr

/-- OS environment for one main-loop iteration: the pids waitpid would
reap, the liveness probe, and per-service start environments. -/
structure IterEnv where
  reaped : List Nat
  alive : Nat → Bool
  senvs : List Env

/-- One body execution of the main supervisor loop: if child_died is
set, reap children (which clears the flag), then run check_services.
Returns the new state and the number of respawn start attempts made. -/
def loop_iter (e : IterEnv) (st : Sys) : Sys × Nat :=
  let svcs1 := if st.childDied then reap_children e.reaped st.services else st.services
  let c := check_services e.alive e.senvs st.shutdown st.reboot svcs1
  (⟨c.svcs, c.shutdown, c.reboot, false⟩, c.attempts)

/-- Shallow embedding of start_all_services: walk the table in registry
order and start every service whose runlevel is at or below the current
runlevel, leaving the others untouched.  Also returns the names of the
services on which start_service was invoked, in invocation order. -/
def start_all_services (cur : Int) : List Env → List Service → List Service × List String
  | _, [] => ([], [])
  | envs, s :: rest =>
    if s.runlevel ≤ cur then
      let o := start_service envs.headI s
      let pr := start_all_services cur envs.tail rest
      (o.svc :: pr.1, s.name :: pr.2)
    else
      let pr := start_all_services cur envs.tail rest
      (s :: pr.1, pr.2)

/-- A directory entry as seen by the load_services readdir loop: the
file name and whether stat succeeded with the owner-execute bit set. -/
structure DirEntry where
  name : String
  executable : Bool
deriving DecidableEq, Repr

/-- The startup-script filter of load_services: first character S and
second character a decimal digit. -/
def isStartupScript (n : String) : Bool :=
  match n.data with
  | 'S' :: c :: _ => decide ('0' ≤ c ∧ c ≤ '9')
  | _ => false

/-- The service record load_services builds for an eligible startup
script: zeroed struct, name from the entry, command "path start",
runlevel RUNLEVEL_FULL (5), ONESHOT flag, state STOPPED. -/
def mkScriptService (e : DirEntry) : Service :=
  { name := e.name
    cmd := "/etc/init.d/" ++ e.name ++ " start"
    runlevel := 5
    respawn := false
    wait := false
    critical := false
    oneshot := true
    state := .stopped
    pid := 0
    start_time := 0
    restart_count := 0
    max_restarts := 0
    restart_delay := 0 }

/-- Shallow embedding of load_services: append a service for every
eligible executable S[0-9]* entry, in directory order.  There is no
duplicate-name check and no failure case. -/
def load_services : List DirEntry → List Service
  | [] => []
  | e :: rest =>
    if isStartupScript e.name ∧ e.executable then
      mkScriptService e :: load_services rest
    else load_services rest

/-- The reverse-order stop walk of stop_all_services, acting on an
already-reversed list: stop each service in turn, collecting the
resulting table (still reversed) and the emitted signal events. -/
def stop_list : List StopEnv → List Service → List Service × List Ev
  | _, [] => ([], [])
  | envs, s :: rest =>
    let o := stop_service envs.headI s
    let pr := stop_list envs.tail rest
    (o.svc :: pr.1, o.evs ++ pr.2)

/-- Shallow embedding of stop_all_services: iterate i from count-1 down
to 0 calling stop_service; the resulting table is returned in original
registry order. -/
def stop_all_services (envs : List StopEnv) (svcs : List Service) :
    List Service × List Ev :=
  let pr := stop_list envs svcs.reverse
  (pr.1.reverse, pr.2)

/-- Shallow embedding of do_shutdown as an event trace: stop the
watchdog, stop all services in reverse order, broadcast the graceful
terminate, sleep 2 s, broadcast the forced kill, sleep 1 s, sync,
unmount the transient filesystems deepest-first, sync again, and invoke
the reboot system call (restart when reboot_requested, else power off). -/
def do_shutdown (envs : List StopEnv) (svcs : List Service) (rb : Bool) :
    List Service × List Ev :=
  let t0 : List Ev := [Ev.stopWatchdog]
  let pr := stop_all_services envs svcs
  let t1 := t0 ++ pr.2
  let t2 := t1 ++ [Ev.bcast .gracefulTerm, Ev.sleepFor 2]
  let t3 := t2 ++ [Ev.bcast .forcedKill, Ev.sleepFor 1]
  let t4 := t3 ++ [Ev.syncFs]
  let t5 := t4 ++ [Ev.umountFs "/tmp", Ev.umountFs "/run", Ev.umountFs "/dev/shm",
                   Ev.umountFs "/dev/pts", Ev.umountFs "/dev", Ev.umountFs "/sys",
                   Ev.umountFs "/proc"]
  let t6 := t5 ++ [Ev.syncFs]
  let t7 := t6 ++ [Ev.rebootCall rb]
  (pr.1, t7)

/-- The shutdown_requested / reboot_requested flag pair written by the
signal handlers. -/
structure Flags where
  shutdown_requested : Bool
  reboot_requested : Bool
deriving DecidableEq, Repr

/-- Signals whose handlers write the flag pair. -/
inductive ShutSig where
  | sigterm
  | sigusr1
deriving DecidableEq, Repr

/-- Shallow embedding of sigterm_handler: request shutdown, reset the
reboot request (halt). -/
def sigterm_handler (_f : Flags) : Flags := ⟨true, false⟩

/-- Shallow embedding of sigusr1_handler: request shutdown and reboot. -/
def sigusr1_handler (_f : Flags) : Flags := ⟨true, true⟩

/-- Deliver one signal to the flag pair. -/
def deliver (f : Flags) (s : ShutSig) : Flags :=
  match s with
  | .sigterm => sigterm_handler f
  | .sigusr1 => sigusr1_handler f

/-- Deliver a sequence of signals in order. -/
def deliverAll (f : Flags) (l : List ShutSig) : Flags := l.foldl deliver f

/-- The pid/state correspondence claimed by the specification. -/
def pidIffRunning (s : Service) : Prop :=
  s.pid ≠ 0 ↔ (s.state = SvcState.running ∨ s.state = SvcState.stopping)

/-- The forward half of the pid/state correspondence: a RUNNING service
has a pid recorded. -/
def fwdInv (s : Service) : Prop := s.state = SvcState.running → s.pid ≠ 0

/-- An environment whose fork result, when present, is a real (nonzero)
child pid, as fork guarantees. -/
def envPos (e : Env) : Prop := ∀ p, e.forkRes = some p → p ≠ 0

/-- A baseline service record for the concrete instances below. -/
def baseSvc : Service :=
  { name := "s"
    cmd := "/bin/svcd"
    runlevel := 2
    respawn := false
    wait := false
    critical := false
    oneshot := false
    state := .stopped
    pid := 0
    start_time := 0
    restart_count := 0
    max_restarts := 5
    restart_delay := 0 }

/-- A WAIT-flagged service whose command is executable. -/
def waitSvc : Service := { baseSvc with name := "w", wait := true }

/-- Environment for starting waitSvc: the command passes the access
check, fork yields child 7, and the child exits with status 0. -/
def waitEnv : Env :=
  { execOk := fun s => s == "/bin/svcd", forkRes := some 7, waitExit := some 0, now := 11 }

/-- A RUNNING service with pid 9. -/
def runSvc : Service := { baseSvc with name := "r", state := .running, pid := 9 }

/-- A stop environment in which the child never exits during polling. -/
def neverExit : StopEnv := ⟨fun _ => false⟩

/-- A service whose command is a single token naming a missing file. -/
def nospaceSvc : Service := { baseSvc with name := "n", cmd := "/bin/nosuch" }

/-- An environment in which no path passes the access check and fork
yields child 5. -/
def nofileEnv : Env :=
  { execOk := fun _ => false, forkRes := some 5, waitExit := none, now := 0 }

/-- A service whose command holds a missing executable plus an argument. -/
def spacedSvc : Service := { baseSvc with name := "m", cmd := "/bin/nosuch -d" }

/-- A startup-script directory entry. -/
def dupEntry : DirEntry := ⟨"S01a", true⟩

/-- A second, distinct startup-script directory entry. -/
def entryB : DirEntry := ⟨"S02b", true⟩

/-- Eligibility test of the load_services readdir loop as a Bool. -/
def eligible (e : DirEntry) : Bool := isStartupScript e.name && e.executable

/-- Runlevel-2 service A of the runlevel scenario. -/
def svcA : Service := { baseSvc with name := "A", runlevel := 2 }

/-- Runlevel-5 service B of the runlevel scenario. -/
def svcB : Service := { baseSvc with name := "B", runlevel := 5 }

/-- Start environment for the runlevel scenario: everything executable,
fork yields child 7. -/
def envAB : Env :=
  { execOk := fun _ => true, forkRes := some 7, waitExit := none, now := 0 }

/-- Liveness probe reporting every process as gone. -/
def deadProbe : Nat → Bool := fun _ => false

/-- Start environment for a respawn: command executable, fork yields
child p. -/
def respEnv (p : Nat) : Env :=
  { execOk := fun s => s == "/bin/svcd", forkRes := some p, waitExit := none, now := 0 }

/-- Service C of the crash-loop scenario: RESPAWN, max_restarts 2,
restart_delay 0, currently RUNNING as pid 10. -/
def svcC : Service :=
  { baseSvc with name := "C", respawn := true, state := .running, pid := 10,
                 max_restarts := 2, restart_delay := 0 }

/-- First observed crash of svcC. -/
def crash1 : CheckOut := check_services deadProbe [respEnv 11] false false [svcC]

/-- Second observed crash. -/
def crash2 : CheckOut := check_services deadProbe [respEnv 12] false false crash1.svcs

/-- Third observed crash. -/
def crash3 : CheckOut := check_services deadProbe [respEnv 13] false false crash2.svcs

/-- A RESPAWN service with full restart budget, RUNNING as pid 5. -/
def svcR : Service := { baseSvc with name := "R", respawn := true, state := .running, pid := 5 }

/-- Loop environment in which child 5 has exited and is reaped, the
liveness probe reports it gone, and a working start environment is
available: the most favorable conditions for a respawn. -/
def reapIterEnv : IterEnv := ⟨[5], deadProbe, [respEnv 20]⟩

/-- Supervisor state holding svcR with the child-death flag raised. -/
def sysD : Sys := ⟨[svcR], false, false, true⟩

/-- What reap_children leaves of svcR: pid cleared, STOPPED. -/
def svcRCleared : Service := { svcR with pid := 0, state := .stopped }

/-- Supervisor state with shutdown_requested already set while svcC is
mid-crash-loop. -/
def shutSysD : Sys := ⟨[svcC], true, false, true⟩

/-- An arbitrary loop environment for the shutdown-cancellation witness. -/
def anyIter : IterEnv := ⟨[10], deadProbe, [respEnv 11]⟩

/-- The fixed unmount order of do_shutdown, deepest mount points first. -/
def umountSeq : List Ev :=
  [Ev.umountFs "/tmp", Ev.umountFs "/run", Ev.umountFs "/dev/shm",
   Ev.umountFs "/dev/pts", Ev.umountFs "/dev", Ev.umountFs "/sys",
   Ev.umountFs "/proc"]

/-- The stopped form of runSvc after stop_service. -/
def runSvcStopped : Service := { runSvc with state := .stopped, pid := 0 }

/-- start_service never modifies restart_count. -/
theorem start_service_restart_count (e : Env) (s : Service) :
    (start_service e s).svc.restart_count = s.restart_count := by
  unfold start_service
  split
  · rfl
  · split
    · rfl
    · split
      · rfl
      · split
        · split <;> rfl
        · rfl

/-- On the successful non-WAIT path, start_service records the forked
pid and marks the service RUNNING. -/
theorem start_service_success (e : Env) (s : Service) (p : Nat)
    (h1 : s.state ≠ SvcState.running) (h2 : cmdNotFound e.execOk s.cmd = false)
    (h3 : e.forkRes = some p) (h4 : s.wait = false) :
    start_service e s =
      ⟨{ s with pid := p, start_time := e.now, state := SvcState.running }, 0, true⟩ := by
  simp [start_service, h1, h2, h3, h4]

/-- start_service preserves the forward pid invariant, assuming fork
returns nonzero pids. -/
theorem start_service_fwd (e : Env) (s : Service) (hp : envPos e) (hf : fwdInv s) :
    fwdInv (start_service e s).svc := by
  by_cases h1 : s.state = SvcState.running
  · simpa [start_service, h1] using hf
  by_cases h2 : cmdNotFound e.execOk s.cmd
  · simp [start_service, h1, h2, fwdInv]
  cases h3 : e.forkRes with
  | none => simp [start_service, h1, h2, h3, fwdInv]
  | some p =>
    by_cases h4 : s.wait = true
    · cases h5 : e.waitExit with
      | none => simp [start_service, h1, h2, h3, h4, h5, fwdInv]
      | some c =>
        cases c with
        | zero => simp [start_service, h1, h2, h3, h4, h5, fwdInv]
        | succ n => simp [start_service, h1, h2, h3, h4, h5, fwdInv]
    · have h2f : cmdNotFound e.execOk s.cmd = false := by simpa using h2
      have h4f : s.wait = false := by simpa using h4
      rw [start_service_success e s p h1 h2f h3 h4f]
      intro _hr
      exact hp p h3

/-- stop_service is the identity outcome on a service that is not
RUNNING. -/
theorem stop_service_not_running (e : StopEnv) (s : Service)
    (h : s.state ≠ SvcState.running) : stop_service e s = ⟨s, 0, 0, false, []⟩ := by
  simp [stop_service, h]

/-- stop_service on a RUNNING service always ends STOPPED with the pid
cleared. -/
theorem stop_service_running (e : StopEnv) (s : Service)
    (h : s.state = SvcState.running) :
    (stop_service e s).svc = { s with state := SvcState.stopped, pid := 0 } := by
  unfold stop_service
  rw [if_pos h]
  cases hf : (List.range 50).find? e.exitPoll <;> rfl

/-- The service left behind by stop_service is never RUNNING. -/
theorem stop_service_state_ne (e : StopEnv) (s : Service) :
    (stop_service e s).svc.state ≠ SvcState.running := by
  by_cases h : s.state = SvcState.running
  · rw [stop_service_running e s h]
    simp
  · rw [show (stop_service e s).svc = s from by rw [stop_service_not_running e s h]]
    exact h

/-- stop_service establishes the forward pid invariant outright. -/
theorem stop_service_fwd (e : StopEnv) (s : Service) :
    fwdInv (stop_service e s).svc :=
  fun hr => absurd hr (stop_service_state_ne e s)

/-- check_one preserves the forward pid invariant. -/
theorem check_one_fwd (alive : Nat → Bool) (e : Env) (sd rb : Bool) (s : Service)
    (hp : envPos e) (hf : fwdInv s) : fwdInv (check_one alive e sd rb s).svc := by
  unfold check_one
  split
  · split
    · split
      · have hs : fwdInv ({ s with state := SvcState.stopped } : Service) := by
          intro h
          simp at h
        have h2 := start_service_fwd e { s with state := SvcState.stopped } hp hs
        intro hr
        exact h2 hr
      · split
        · intro hr
          simp at hr
        · intro hr
          simp at hr
    · intro hr
      simp at hr
  · exact hf

/-- Every service in the table after reap_one handled one pid is either
untouched or has been cleared (pid 0, not RUNNING). -/
theorem reap_one_mem (p : Nat) (svcs : List Service) :
    ∀ x ∈ reap_one svcs p, x ∈ svcs ∨ (x.pid = 0 ∧ x.state ≠ SvcState.running) := by
  induction svcs with
  | nil =>
    intro x hx
    simp [reap_one] at hx
  | cons s rest ih =>
    intro x hx
    simp only [reap_one] at hx
    by_cases hp : s.pid = p
    · rw [if_pos hp] at hx
      rcases List.mem_cons.mp hx with h | h
      · subst h
        right
        refine ⟨rfl, ?_⟩
        by_cases hr : s.state = SvcState.running <;> simp [hr]
      · exact Or.inl (List.mem_cons_of_mem _ h)
    · rw [if_neg hp] at hx
      rcases List.mem_cons.mp hx with h | h
      · exact Or.inl (h ▸ List.mem_cons_self s rest)
      · rcases ih x h with h2 | h2
        · exact Or.inl (List.mem_cons_of_mem _ h2)
        · exact Or.inr h2

/-- Every service in the table after reap_children is either untouched
or has been cleared (pid 0, not RUNNING). -/
theorem reap_children_mem :
    ∀ (reaped : List Nat) (svcs : List Service), ∀ x ∈ reap_children reaped svcs,
      x ∈ svcs ∨ (x.pid = 0 ∧ x.state ≠ SvcState.running) := by
  intro reaped
  induction reaped with
  | nil =>
    intro svcs x hx
    exact Or.inl hx
  | cons q qs ih =>
    intro svcs x hx
    have hx2 : x ∈ reap_children qs (reap_one svcs q) := hx
    rcases ih (reap_one svcs q) x hx2 with h | h
    · exact reap_one_mem q svcs x h
    · exact Or.inr h

/-- With shutdown requested, check_one never attempts a restart, keeps
the shutdown flag, and leaves the reboot flag alone. -/
theorem check_one_shutdown_true (alive : Nat → Bool) (e : Env) (rb : Bool) (s : Service) :
    (check_one alive e true rb s).attempts = 0 ∧
    (check_one alive e true rb s).shutdown = true ∧
    (check_one alive e true rb s).reboot = rb := by
  unfold check_one
  split
  · simp
  · simp

/-- With shutdown requested, check_services over the whole table makes
zero restart attempts and keeps both flags. -/
theorem check_services_shutdown_true (alive : Nat → Bool) :
    ∀ (svcs : List Service) (envs : List Env) (rb : Bool),
      (check_services alive envs true rb svcs).attempts = 0 ∧
      (check_services alive envs true rb svcs).shutdown = true ∧
      (check_services alive envs true rb svcs).reboot = rb := by
  intro svcs
  induction svcs with
  | nil =>
    intro envs rb
    exact ⟨rfl, rfl, rfl⟩
  | cons s rest ih =>
    intro envs rb
    have h1 := check_one_shutdown_true alive envs.headI rb s
    simp only [check_services]
    rw [h1.2.1, h1.2.2]
    have h2 := ih envs.tail rb
    refine ⟨?_, ?_, ?_⟩
    · show (check_one alive envs.headI true rb s).attempts +
        (check_services alive envs.tail true rb rest).attempts = 0
      rw [h1.1, h2.1]
    · exact h2.2.1
    · exact h2.2.2

/-- No service is left RUNNING by the reverse-order stop walk. -/
theorem stop_list_no_running :
    ∀ (l : List Service) (envs : List StopEnv), ∀ x ∈ (stop_list envs l).1,
      x.state ≠ SvcState.running := by
  intro l
  induction l with
  | nil =>
    intro envs x hx
    simp [stop_list] at hx
  | cons s rest ih =>
    intro envs x hx
    simp only [stop_list] at hx
    rcases List.mem_cons.mp hx with h | h
    · rw [h]
      exact stop_service_state_ne envs.headI s
    · exact ih envs.tail x h

/-- The full shutdown trace, flattened: watchdog stop first, then the
per-service stop events over the reversed registry, then the fixed
broadcast / sleep / sync / unmount / reboot tail. -/
theorem do_shutdown_trace (envs : List StopEnv) (svcs : List Service) (rb : Bool) :
    (do_shutdown envs svcs rb).2 =
      Ev.stopWatchdog :: ((stop_list envs svcs.reverse).2 ++
        ([Ev.bcast SigKind.gracefulTerm, Ev.sleepFor 2, Ev.bcast SigKind.forcedKill,
          Ev.sleepFor 1, Ev.syncFs] ++ umountSeq ++ [Ev.syncFs, Ev.rebootCall rb])) := by
  simp [do_shutdown, stop_all_services, umountSeq]

/-- The last event of the shutdown trace is the reboot system call with
the code selected by reboot_requested. -/
theorem do_shutdown_last (envs : List StopEnv) (svcs : List Service) (rb : Bool) :
    (do_shutdown envs svcs rb).2.getLast? = some (Ev.rebootCall rb) := by
  simp only [do_shutdown]
  exact List.getLast?_concat _

/-- No service is left RUNNING by do_shutdown. -/
theorem do_shutdown_no_running (envs : List StopEnv) (svcs : List Service) (rb : Bool) :
    ∀ x ∈ (do_shutdown envs svcs rb).1, x.state ≠ SvcState.running := by
  intro x hx
  have h2 : x ∈ (stop_list envs svcs.reverse).1.reverse := by
    simpa [do_shutdown, stop_all_services] using hx
  exact stop_list_no_running svcs.reverse envs x (List.mem_reverse.mp h2)

/-- Dropping n+1 elements is dropping n from the tail. -/
theorem drop_succ_eq_tail_drop {α : Type _} (l : List α) (n : Nat) :
    l.drop (n + 1) = l.tail.drop n := by
  cases l <;> simp

/-- Pointwise description of the startup pass: entry i is started
exactly when its runlevel is at or below the current runlevel, and is
untouched otherwise. -/
theorem start_all_get (cur : Int) :
    ∀ (svcs : List Service) (envs : List Env) (i : Nat),
      ((start_all_services cur envs svcs).1)[i]? =
        (svcs[i]?).map (fun s =>
          if s.runlevel ≤ cur then (start_service ((envs.drop i).headI) s).svc else s) := by
  intro svcs
  induction svcs with
  | nil =>
    intro envs i
    simp [start_all_services]
  | cons s rest ih =>
    intro envs i
    cases i with
    | zero =>
      by_cases h : s.runlevel ≤ cur
      · simp [start_all_services, h]
      · simp [start_all_services, h]
    | succ n =>
      by_cases h : s.runlevel ≤ cur
      · simp only [start_all_services, h, if_true, List.getElem?_cons_succ]
        rw [ih envs.tail n, drop_succ_eq_tail_drop]
      · simp only [start_all_services, h, if_false, List.getElem?_cons_succ]
        rw [ih envs.tail n, drop_succ_eq_tail_drop]

/-- The names started by the startup pass are exactly the eligible
services, in registry order. -/
theorem start_all_names (cur : Int) :
    ∀ (svcs : List Service) (envs : List Env),
      (start_all_services cur envs svcs).2 =
        (svcs.filter (fun s => decide (s.runlevel ≤ cur))).map Service.name := by
  intro svcs
  induction svcs with
  | nil =>
    intro envs
    rfl
  | cons s rest ih =>
    intro envs
    by_cases h : s.runlevel ≤ cur
    · simp [start_all_services, h, List.filter_cons, ih envs.tail]
    · simp [start_all_services, h, List.filter_cons, ih envs.tail]

/-- The registry names produced by load_services are exactly the
eligible directory entries' names, in directory order. -/
theorem load_services_names (entries : List DirEntry) :
    (load_services entries).map Service.name = (entries.filter eligible).map DirEntry.name := by
  induction entries with
  | nil => rfl
  | cons a rest ih =>
    by_cases h : isStartupScript a.name ∧ a.executable
    · have hb : eligible a = true := by
        simp only [eligible, Bool.and_eq_true]
        exact h
      simp [load_services, h, List.filter_cons, hb, ih, mkScriptService]
    · have hb : eligible a = false := by
        rw [Bool.eq_false_iff]
        intro hx
        exact h ((Bool.and_eq_true _ _).mp (by simpa [eligible] using hx))
      simp [load_services, h, List.filter_cons, hb, ih]

/-- Claim C1 (refuted by the code, supporting the code_bug verdict): a
RESPAWN service with full restart budget whose child has exited is, in
the loop iteration that reaps it, left STOPPED with pid cleared and zero
respawn start attempts, and every later loop iteration (any environment)
leaves it STOPPED with zero start attempts as well — the respawn policy
is never applied to a service whose death is observed through the reap
path, because reap_children moves it out of the RUNNING state that
check_services requires. -/
theorem reaped_respawn_service_never_restarted :
    ((loop_iter reapIterEnv sysD).1 = ⟨[svcRCleared], false, false, false⟩ ∧
     (loop_iter reapIterEnv sysD).2 = 0) ∧
    (∀ e : IterEnv, loop_iter e (⟨[svcRCleared], false, false, false⟩ : Sys) =
        (⟨[svcRCleared], false, false, false⟩, 0)) := by
  constructor
  · exact ⟨by decide, by decide⟩
  · intro e
    simp [loop_iter, check_services, check_one, svcRCleared, svcR, baseSvc]

/-- Claim C2 (counterexample): starting a WAIT-flagged service whose
child exits 0 leaves the service STOPPED while its pid field still holds
the forked pid 7, refuting the claimed biconditional that pid is set iff
the state is RUNNING or STOPPING. -/
theorem wait_start_breaks_pid_iff :
    (start_service waitEnv waitSvc).svc.state = SvcState.stopped ∧
    (start_service waitEnv waitSvc).svc.pid = 7 ∧
    ¬ pidIffRunning (start_service waitEnv waitSvc).svc := by
  unfold pidIffRunning
  decide

/-- Claim C2 (amended): stop always leaves a RUNNING service STOPPED
with pid cleared and is the identity otherwise; every service touched by
reap ends with pid 0 and not RUNNING; and start, the health check, and
restart preserve the forward direction of the invariant (a RUNNING
service has a nonzero pid, given that fork returns nonzero pids) — but
only that direction: STOPPED or FAILED services may retain a stale pid. -/
theorem pid_state_invariant_amended :
    (∀ (e : StopEnv) (s : Service), s.state = SvcState.running →
        (stop_service e s).svc = { s with state := SvcState.stopped, pid := 0 }) ∧
    (∀ (e : StopEnv) (s : Service), s.state ≠ SvcState.running →
        (stop_service e s).svc = s) ∧
    (∀ (reaped : List Nat) (svcs : List Service), ∀ x ∈ reap_children reaped svcs,
        x ∈ svcs ∨ (x.pid = 0 ∧ x.state ≠ SvcState.running)) ∧
    (∀ (e : Env) (s : Service), envPos e → fwdInv s → fwdInv (start_service e s).svc) ∧
    (∀ (alive : Nat → Bool) (e : Env) (sd rb : Bool) (s : Service),
        envPos e → fwdInv s → fwdInv (check_one alive e sd rb s).svc) ∧
    (∀ (se : StopEnv) (e : Env) (s : Service), envPos e →
        fwdInv (restart_service se e s).svc) ∧
    (∀ (reaped : List Nat) (svcs : List Service), (∀ s ∈ svcs, fwdInv s) →
        ∀ x ∈ reap_children reaped svcs, fwdInv x) := by
  refine ⟨?_, ?_, reap_children_mem, start_service_fwd, check_one_fwd, ?_, ?_⟩
  · intro e s h
    exact stop_service_running e s h
  · intro e s h
    rw [stop_service_not_running e s h]
  · intro se e s hp
    exact start_service_fwd e _ hp (stop_service_fwd se s)
  · intro reaped svcs hall x hx
    rcases reap_children_mem reaped svcs x hx with h | h
    · exact hall x h
    · exact fun hr => absurd hr h.2

/-- Claim C2 (witness): the amended statement applied to a concrete
RUNNING service stopped in a never-exiting environment. -/
theorem pid_state_invariant_amended_w :
    (stop_service neverExit runSvc).svc = runSvcStopped :=
  pid_state_invariant_amended.1 neverExit runSvc (by decide)

/-- Claim C3: in the crash-loop scenario (RESPAWN, max_restarts 2,
restart_delay 0) the service is restarted on the first two observed
crashes with restart_count going 1 then 2, and on the third observed
crash it is marked FAILED with restart_count still 2 and no third start
attempt; in general an observed crash of a RESPAWN service below budget
increments restart_count exactly once with exactly one start attempt,
and (when the restart itself would succeed) the service is marked FAILED
with no attempt exactly when restart_count equals max_restarts. -/
theorem respawn_budget_exact :
    (crash1.svcs.map Service.restart_count = [1] ∧
     crash2.svcs.map Service.restart_count = [2] ∧
     crash3.svcs.map Service.restart_count = [2] ∧
     crash3.svcs.map Service.state = [SvcState.failed] ∧
     crash1.attempts = 1 ∧ crash2.attempts = 1 ∧ crash3.attempts = 0) ∧
    (∀ (alive : Nat → Bool) (e : Env) (rb : Bool) (s : Service),
        s.state = SvcState.running → is_running alive s.pid = false →
        s.respawn = true → s.restart_count < s.max_restarts →
        (check_one alive e false rb s).svc.restart_count = s.restart_count + 1 ∧
        (check_one alive e false rb s).attempts = 1) ∧
    (∀ (alive : Nat → Bool) (e : Env) (rb : Bool) (s : Service) (p : Nat),
        s.state = SvcState.running → is_running alive s.pid = false →
        s.respawn = true → s.restart_count ≤ s.max_restarts →
        cmdNotFound e.execOk s.cmd = false → e.forkRes = some p → s.wait = false →
        ((check_one alive e false rb s).svc.state = SvcState.failed ↔
          s.restart_count = s.max_restarts) ∧
        ((check_one alive e false rb s).attempts = 0 ↔
          s.restart_count = s.max_restarts)) := by
  refine ⟨by decide, ?_, ?_⟩
  · intro alive e rb s h1 h2 h3 h4
    unfold check_one
    rw [if_pos (And.intro h1 h2), if_pos (And.intro h3 rfl), if_pos h4]
    constructor
    · show (start_service e { s with state := SvcState.stopped }).svc.restart_count + 1 =
        s.restart_count + 1
      rw [start_service_restart_count]
    · rfl
  · intro alive e rb s p h1 h2 h3 hle h5 h6 h7
    by_cases hlt : s.restart_count < s.max_restarts
    · have hne : s.restart_count ≠ s.max_restarts := Nat.ne_of_lt hlt
      have hs : (start_service e { s with state := SvcState.stopped }).svc.state =
          SvcState.running := by
        have hne2 : ({ s with state := SvcState.stopped } : Service).state ≠
            SvcState.running := by simp
        rw [start_service_success e _ p hne2 h5 h6 h7]
      unfold check_one
      rw [if_pos (And.intro h1 h2), if_pos (And.intro h3 rfl), if_pos hlt]
      constructor
      · show (start_service e { s with state := SvcState.stopped }).svc.state =
          SvcState.failed ↔ s.restart_count = s.max_restarts
        rw [hs]
        simp [hne]
      · show (1 : Nat) = 0 ↔ s.restart_count = s.max_restarts
        simp [hne]
    · have heq : s.restart_count = s.max_restarts :=
        Nat.le_antisymm hle (Nat.not_lt.mp hlt)
      unfold check_one
      rw [if_pos (And.intro h1 h2), if_pos (And.intro h3 rfl), if_neg hlt]
      by_cases hc : s.critical = true
      · rw [if_pos hc]
        simp [heq]
      · rw [if_neg hc]
        simp [heq]

/-- Claim C3 (witness): the general crash-observation step applied to
the concrete service C on its first crash. -/
theorem respawn_budget_exact_w :
    (check_one deadProbe (respEnv 11) false false svcC).svc.restart_count =
      svcC.restart_count + 1 ∧
    (check_one deadProbe (respEnv 11) false false svcC).attempts = 1 :=
  respawn_budget_exact.2.1 deadProbe (respEnv 11) false svcC (by decide) (by decide)
    (by decide) (by decide)

/-- Claim C4 (counterexample): starting a service whose command is a
single nonexistent token is not rejected before the fork: the code only
rejects when the command contains a space, so the service is forked
anyway and marked RUNNING with a recorded pid. -/
theorem spaceless_missing_command_forks :
    (start_service nofileEnv nospaceSvc).svc.state = SvcState.running ∧
    (start_service nofileEnv nospaceSvc).svc.pid = 5 ∧
    (start_service nofileEnv nospaceSvc).forked = true := by decide

/-- Claim C4 (amended): when the literal command string is not
executable AND the command contains a space whose first token is also
not executable, start yields FAILED with the pid left unchanged, returns
the error code, and performs no fork. -/
theorem missing_command_with_space_fails_before_fork :
    ∀ (e : Env) (s : Service), s.state ≠ SvcState.running →
      e.execOk s.cmd = false → s.cmd.data.contains spaceChar = true →
      e.execOk (firstTok s.cmd) = false →
      (start_service e s).svc.state = SvcState.failed ∧
      (start_service e s).svc.pid = s.pid ∧
      (start_service e s).ret = -1 ∧
      (start_service e s).forked = false := by
  intro e s h1 h2 h3 h4
  have hc : cmdNotFound e.execOk s.cmd = true := by
    simp only [cmdNotFound, h2, h3, h4]
    simp
  simp [start_service, h1, hc]

/-- Claim C4 (witness): the amended statement at a concrete service with
a missing two-token command. -/
theorem missing_command_with_space_fails_before_fork_w :
    (start_service nofileEnv spacedSvc).svc.state = SvcState.failed ∧
    (start_service nofileEnv spacedSvc).svc.pid = spacedSvc.pid ∧
    (start_service nofileEnv spacedSvc).ret = -1 ∧
    (start_service nofileEnv spacedSvc).forked = false :=
  missing_command_with_space_fails_before_fork nofileEnv spacedSvc (by decide) (by decide)
    (by decide) (by decide)

/-- Claim C5 (counterexample): feeding load_services two identically
named eligible entries yields a registry with the duplicated name and no
error of any kind — there is no DuplicateService rejection. -/
theorem duplicate_names_accepted :
    (load_services [dupEntry, dupEntry]).map Service.name = ["S01a", "S01a"] ∧
    ¬ ((load_services [dupEntry, dupEntry]).map Service.name).Nodup := by decide

/-- Claim C5 (amended): registry construction performs no duplicate
check — it appends every eligible entry, so its names are exactly the
eligible entries' names in order, and they are unique precisely when the
input names are (which a single directory listing guarantees). -/
theorem load_services_no_duplicate_check :
    ∀ entries : List DirEntry,
      (load_services entries).map Service.name =
        (entries.filter eligible).map DirEntry.name ∧
      ((entries.map DirEntry.name).Nodup →
        ((load_services entries).map Service.name).Nodup) := by
  intro entries
  refine ⟨load_services_names entries, ?_⟩
  intro hnd
  rw [load_services_names entries]
  exact ((List.filter_sublist entries).map DirEntry.name).nodup hnd

/-- Claim C5 (witness): the amended statement at two distinct entries. -/
theorem load_services_no_duplicate_check_w :
    ((load_services [dupEntry, entryB]).map Service.name).Nodup :=
  (load_services_no_duplicate_check [dupEntry, entryB]).2 (by decide)

/-- Claim C6: stop is a no-op on a service that is not RUNNING;
otherwise it sends the graceful-terminate signal first, performs at most
50 polls (of 100 ms each), escalates to the forced kill exactly when no
poll within the 50 observes the exit, and in all cases ends STOPPED with
the pid cleared and returns success. -/
theorem stop_service_graceful_then_kill :
    ∀ (e : StopEnv) (s : Service),
      (s.state ≠ SvcState.running → stop_service e s = ⟨s, 0, 0, false, []⟩) ∧
      (s.state = SvcState.running →
        (stop_service e s).svc.state = SvcState.stopped ∧
        (stop_service e s).svc.pid = 0 ∧
        (stop_service e s).ret = 0 ∧
        (stop_service e s).polls ≤ 50 ∧
        ((stop_service e s).killed = true ↔ ∀ i < 50, e.exitPoll i = false) ∧
        (stop_service e s).evs.head? = some (Ev.sig s.pid SigKind.gracefulTerm)) := by
  intro e s
  constructor
  · intro h
    exact stop_service_not_running e s h
  · intro h
    unfold stop_service
    rw [if_pos h]
    cases hf : (List.range 50).find? e.exitPoll with
    | some i =>
      have hi : i < 50 := List.mem_range.mp (List.mem_of_find?_eq_some hf)
      have hpi : e.exitPoll i = true := List.find?_some hf
      refine ⟨rfl, rfl, rfl, Nat.succ_le_of_lt hi, ?_, rfl⟩
      constructor
      · intro hk
        cases hk
      · intro hall
        rw [hall i hi] at hpi
        exact hpi
    | none =>
      have hall : ∀ i < 50, e.exitPoll i = false := by
        intro i hi
        have h2 := List.find?_eq_none.mp hf i (List.mem_range.mpr hi)
        simpa using h2
      exact ⟨rfl, rfl, rfl, Nat.le_refl 50, ⟨fun _ => hall, fun _ => rfl⟩, rfl⟩

/-- Claim C6 (witness): a RUNNING service whose child ignores the
graceful signal for all 50 polls is force-killed and ends STOPPED with
pid cleared. -/
theorem stop_service_graceful_then_kill_w :
    (stop_service neverExit runSvc).svc.state = SvcState.stopped ∧
    (stop_service neverExit runSvc).svc.pid = 0 ∧
    (stop_service neverExit runSvc).killed = true := by
  have h := (stop_service_graceful_then_kill neverExit runSvc).2 (by decide)
  exact ⟨h.1, h.2.1, h.2.2.2.2.1.mpr (by decide)⟩

/-- Claim C7: the shutdown trace is exactly: watchdog stop first, then
the stop events of the services in reverse registry order, then the
graceful broadcast, a 2 s sleep, the forced-kill broadcast, a 1 s sleep,
sync, the unmounts deepest-first, sync again, and last the reboot call
whose code is selected by reboot_requested; afterwards no service is
left RUNNING. -/
theorem shutdown_sequence_order :
    ∀ (envs : List StopEnv) (svcs : List Service) (rb : Bool),
      ((do_shutdown envs svcs rb).2 =
        Ev.stopWatchdog :: ((stop_list envs svcs.reverse).2 ++
          ([Ev.bcast SigKind.gracefulTerm, Ev.sleepFor 2, Ev.bcast SigKind.forcedKill,
            Ev.sleepFor 1, Ev.syncFs] ++ umountSeq ++ [Ev.syncFs, Ev.rebootCall rb]))) ∧
      ((do_shutdown envs svcs rb).2.head? = some Ev.stopWatchdog) ∧
      ((do_shutdown envs svcs rb).2.getLast? = some (Ev.rebootCall rb)) ∧
      (∀ x ∈ (do_shutdown envs svcs rb).1, x.state ≠ SvcState.running) := by
  intro envs svcs rb
  refine ⟨do_shutdown_trace envs svcs rb, ?_, do_shutdown_last envs svcs rb,
    do_shutdown_no_running envs svcs rb⟩
  rw [do_shutdown_trace envs svcs rb]
  rfl

/-- Claim C7 (witness): the shutdown trace over one RUNNING service that
never exits, with a halt request: the sequence facts applied to the
stopped member. -/
theorem shutdown_sequence_order_w :
    runSvcStopped.state ≠ SvcState.running ∧
    (do_shutdown [neverExit] [runSvc] false).2.getLast? =
      some (Ev.rebootCall false) :=
  ⟨(shutdown_sequence_order [neverExit] [runSvc] false).2.2.2 runSvcStopped (by decide),
   (shutdown_sequence_order [neverExit] [runSvc] false).2.2.1⟩

/-- Claim C8: in the scenario registry [A(runlevel 2), B(runlevel 5)]
with current runlevel 3 only A is started; in general, entry i of the
startup pass is started exactly when its runlevel is at or below the
current runlevel and untouched otherwise, the started names are the
eligible services in registry order, and every service above the
runlevel is returned unchanged. -/
theorem startup_pass_runlevel_gate :
    ((start_all_services 3 [envAB, envAB] [svcA, svcB]).1.map Service.state =
        [SvcState.running, SvcState.stopped] ∧
     (start_all_services 3 [envAB, envAB] [svcA, svcB]).1.map Service.pid = [7, 0] ∧
     (start_all_services 3 [envAB, envAB] [svcA, svcB]).2 = ["A"]) ∧
    (∀ (cur : Int) (envs : List Env) (svcs : List Service) (i : Nat),
        ((start_all_services cur envs svcs).1)[i]? =
          (svcs[i]?).map (fun s =>
            if s.runlevel ≤ cur then (start_service ((envs.drop i).headI) s).svc else s)) ∧
    (∀ (cur : Int) (envs : List Env) (svcs : List Service),
        (start_all_services cur envs svcs).2 =
          (svcs.filter (fun s => decide (s.runlevel ≤ cur))).map Service.name) ∧
    (∀ (cur : Int) (envs : List Env) (svcs : List Service) (i : Nat) (s : Service),
        svcs[i]? = some s → ¬ s.runlevel ≤ cur →
        ((start_all_services cur envs svcs).1)[i]? = some s) := by
  refine ⟨by decide, ?_, ?_, ?_⟩
  · intro cur envs svcs i
    exact start_all_get cur svcs envs i
  · intro cur envs svcs
    exact start_all_names cur svcs envs
  · intro cur envs svcs i s hs hgt
    rw [start_all_get cur svcs envs i, hs]
    simp [hgt]

/-- Claim C8 (witness): the untouched-above-runlevel fact applied to
service B at index 1 of the concrete scenario. -/
theorem startup_pass_runlevel_gate_w :
    ((start_all_services 3 [envAB, envAB] [svcA, svcB]).1)[1]? = some svcB :=
  startup_pass_runlevel_gate.2.2.2 3 [envAB, envAB] [svcA, svcB] 1 svcB (by decide)
    (by decide)

/-- Claim C9: with shutdown_requested set, a single health-check step
makes no restart attempt, a full check_services sweep makes zero restart
attempts and keeps the flag, and a whole supervisor-loop iteration makes
zero restart attempts and keeps the flag — so once shutdown is requested
the respawn policy never starts a service again. -/
theorem no_respawn_after_shutdown_requested :
    (∀ (alive : Nat → Bool) (e : Env) (rb : Bool) (s : Service),
        (check_one alive e true rb s).attempts = 0 ∧
        (check_one alive e true rb s).shutdown = true) ∧
    (∀ (alive : Nat → Bool) (envs : List Env) (rb : Bool) (svcs : List Service),
        (check_services alive envs true rb svcs).attempts = 0 ∧
        (check_services alive envs true rb svcs).shutdown = true) ∧
    (∀ (e : IterEnv) (st : Sys), st.shutdown = true →
        (loop_iter e st).2 = 0 ∧ (loop_iter e st).1.shutdown = true) := by
  refine ⟨?_, ?_, ?_⟩
  · intro alive e rb s
    have h := check_one_shutdown_true alive e rb s
    exact ⟨h.1, h.2.1⟩
  · intro alive envs rb svcs
    have h := check_services_shutdown_true alive svcs envs rb
    exact ⟨h.1, h.2.1⟩
  · intro e st h
    have h2 := check_services_shutdown_true e.alive
      (if st.childDied then reap_children e.reaped st.services else st.services)
      e.senvs st.reboot
    simp only [loop_iter, h]
    exact ⟨h2.1, h2.2.1⟩

/-- Claim C9 (witness): a loop iteration on a state with
shutdown_requested already set and a RESPAWN service mid-crash-loop
makes no restart attempt. -/
theorem no_respawn_after_shutdown_requested_w :
    (loop_iter anyIter shutSysD).2 = 0 ∧
    (loop_iter anyIter shutSysD).1.shutdown = true :=
  no_respawn_after_shutdown_requested.2.2 anyIter shutSysD (by decide)

/-- Claim C10: the graceful-terminate handler sets shutdown_requested
and clears reboot_requested while the reboot-request handler sets both,
so for any delivery sequence the last signal decides reboot versus halt
— in particular a pending reboot request followed by a graceful
terminate ends as a halt — and do_shutdown issues the restart code
exactly when reboot_requested is set. -/
theorem signal_handlers_last_delivery_wins :
    (∀ f : Flags, sigterm_handler f = ⟨true, false⟩ ∧ sigusr1_handler f = ⟨true, true⟩) ∧
    (∀ (f : Flags) (l : List ShutSig),
        deliverAll f (l ++ [ShutSig.sigterm]) = ⟨true, false⟩ ∧
        deliverAll f (l ++ [ShutSig.sigusr1]) = ⟨true, true⟩) ∧
    (deliverAll ⟨false, false⟩ [ShutSig.sigusr1, ShutSig.sigterm] = ⟨true, false⟩) ∧
    (∀ (envs : List StopEnv) (svcs : List Service),
        (do_shutdown envs svcs false).2.getLast? = some (Ev.rebootCall false) ∧
        (do_shutdown envs svcs true).2.getLast? = some (Ev.rebootCall true)) := by
  refine ⟨fun f => ⟨rfl, rfl⟩, ?_, rfl, ?_⟩
  · intro f l
    constructor
    · unfold deliverAll
      rw [List.foldl_append]
      rfl
    · unfold deliverAll
      rw [List.foldl_append]
      rfl
  · intro envs svcs
    exact ⟨do_shutdown_last envs svcs false, do_shutdown_last envs svcs true⟩

end InitAdv
